import Mathlib

/-!
Verification development for the `search_acls` repository: ACL generation and
bulk assignment (`1_add_acls_unique.py`), search-index creation
(`2_create_indexes.py`), the ACL-filtered lexical search (`3_atlas_search.py`),
the ACL-filtered vector search (`4_vector_search.py`) and the rank-fusion query
(`5_rank_fusion.py`), shallowly embedded in Lean 4.

External effects (MongoDB aggregation calls, the OpenAI embedding request,
bulk writes) are modelled by passing their responses in as explicit
parameters and by recording the requests the scripts issue as event traces.
Randomness (`random.randint`) is modelled by an explicit supply stream.
-/

/-! ## ACL filters (`4_vector_search.py` lines 67-74, `3_atlas_search.py` lines 50-76) -/

/-- A document's attribute view: each attribute name (e.g. `"ACL1"`) holds the
document's list of integer ACL values for that attribute. -/
def DocAttrs : Type := String → List Int

/-- One `$in` condition of the `$and` vector filter: `{field: {"$in": vals}}`.
MongoDB semantics on an array-valued field: the document matches when the
field's array has at least one element among `vals`. -/
structure InCond where
  field : String
  vals : List Int
deriving DecidableEq

/-- The `vector_filter` of `4_vector_search.py` lines 67-74 (the identical
literal appears in `5_rank_fusion.py` lines 38-45): an `$and` of four `$in`
clauses, two on `ACL1` (values 17 and 556) and two on `ACL2` (83 and 358). -/
def vector_filter : List InCond :=
  [⟨"ACL1", [17]⟩, ⟨"ACL1", [556]⟩, ⟨"ACL2", [83]⟩, ⟨"ACL2", [358]⟩]

/-- Evaluate one `$in` clause on a document. -/
def evalInCond (doc : DocAttrs) (c : InCond) : Bool :=
  (doc c.field).any (fun x => c.vals.contains x)

/-- Evaluate the `$and` of a list of `$in` clauses on a document. -/
def evalVectorFilter (doc : DocAttrs) (f : List InCond) : Bool :=
  f.all (evalInCond doc)

/-- One `in` clause of the Atlas Search `compound.must` array:
`{"in": {"value": v, "path": p}}`; matches when `v` is a member of the
document's array at path `p`. -/
structure SearchInClause where
  value : Int
  path : String
deriving DecidableEq

/-- The `compound.must` array of the `$search` stage in `3_atlas_search.py`
lines 50-76 (the identical literal appears in `5_rank_fusion.py`
lines 106-132). -/
def searchMustClauses : List SearchInClause :=
  [⟨17, "ACL1"⟩, ⟨556, "ACL1"⟩, ⟨83, "ACL2"⟩, ⟨358, "ACL2"⟩]

/-- Evaluate one `compound.must` `in` clause on a document. -/
def evalSearchInClause (doc : DocAttrs) (c : SearchInClause) : Bool :=
  (doc c.path).contains c.value

/-- Evaluate the conjunction of all `compound.must` clauses on a document. -/
def evalMust (doc : DocAttrs) (cs : List SearchInClause) : Bool :=
  cs.all (evalSearchInClause doc)

/-- Modelled from the spec (section 4.3): `build_filter` turns an authorized
map (attribute name to list of required values) into one membership predicate
per required value; the scripts hard-code its output for the authorized map
`{ACL1: {17, 556}, ACL2: {83, 358}}`. -/
def build_filter (authorized : List (String × List Int)) : List InCond :=
  authorized.flatMap (fun p => p.2.map (fun v => InCond.mk p.1 [v]))

theorem evalInCond_singleton (doc : DocAttrs) (a : String) (v : Int) :
    evalInCond doc (InCond.mk a [v]) = (doc a).contains v := by
  apply Bool.eq_iff_iff.mpr
  simp [evalInCond, List.any_eq_true]

/-- C1: the ACL filter is an AND of membership predicates.  First conjunct:
`build_filter` on an authorized entry `("A", [1, 2])` evaluates to
(1 ∈ doc "A") AND (2 ∈ doc "A") AND the remaining attributes' predicates —
so a document whose `"A"` set contains neither 1 nor 2 is excluded, and one
whose `"A"` set contains both is included subject only to the other
attributes.  Second conjunct: the vector filter (`$and` of `$in`) and the
lexical filter (`compound.must` of `in`) of the scripts evaluate identically
on every document.  Third conjunct: the hard-coded `vector_filter` is exactly
`build_filter` of the scripts' authorized map.  Fourth conjunct: the lexical
clauses list the same (path, value) pairs as the vector clauses, in the same
order. -/
theorem acl_filter_and_of_memberships :
    (∀ (doc : DocAttrs) (rest : List (String × List Int)),
        evalVectorFilter doc (build_filter (("A", [1, 2]) :: rest)) =
          ((doc "A").contains 1 && (doc "A").contains 2 &&
            evalVectorFilter doc (build_filter rest)))
    ∧ (∀ doc : DocAttrs, evalVectorFilter doc vector_filter = evalMust doc searchMustClauses)
    ∧ build_filter [("ACL1", [17, 556]), ("ACL2", [83, 358])] = vector_filter
    ∧ searchMustClauses.map (fun c => (c.path, c.value)) =
        vector_filter.flatMap (fun c => c.vals.map (fun v => (c.field, v))) := by
  refine ⟨?_, ?_, ?_, ?_⟩
  · intro doc rest
    simp [build_filter, evalVectorFilter, evalInCond_singleton, Bool.and_assoc]
  · intro doc
    simp [vector_filter, searchMustClauses, evalVectorFilter, evalMust,
      evalSearchInClause, evalInCond_singleton]
  · rfl
  · rfl

/-! ## ACL generation (`1_add_acls_unique.py` lines 18-31) -/

/-- Python `set.add` on a duplicate-free list: insert a value, keeping the
list unchanged when the value is already present. -/
def setAdd (s : List Int) (v : Int) : List Int :=
  if s.contains v then s else v :: s

/-- The `while len(acl_set) < length:` sampling loop of `generate_acl_array`
(lines 28-29).  `supply` models the stream of `get_random_int(1, 32767)`
draws (`random.randint` is an external random source); `i` indexes the next
draw.  Fuel makes the loop total: `none` means the fuel ran out before the
set reached the target length. -/
def aclLoop (length : Nat) (supply : Nat → Int) : Nat → Nat → List Int → Option (List Int)
  | 0, _, acl_set => if length ≤ acl_set.length then some acl_set else none
  | fuel + 1, i, acl_set =>
    if length ≤ acl_set.length then some acl_set
    else aclLoop length supply fuel (i + 1) (setAdd acl_set (supply i))

/-- Embedding of `generate_acl_array` (lines 22-31): the caller samples the
target `length` from `get_random_int(0, 500)`; the loop fills a set with
`get_random_int(1, 32767)` draws until it has `length` elements; the result
is the set's contents sorted ascending (`sorted(list(acl_set))`). -/
def generate_acl_array (fuel length : Nat) (supply : Nat → Int) : Option (List Int) :=
  (aclLoop length supply fuel 0 []).map (List.insertionSort (· ≤ ·))

theorem setAdd_nodup {s : List Int} (v : Int) (h : s.Nodup) : (setAdd s v).Nodup := by
  unfold setAdd
  split
  · exact h
  · next hc => exact List.nodup_cons.mpr ⟨by simpa using hc, h⟩

theorem setAdd_length (s : List Int) (v : Int) : (setAdd s v).length ≤ s.length + 1 := by
  unfold setAdd
  split
  · omega
  · simp

theorem setAdd_mem {s : List Int} {v x : Int} (h : x ∈ setAdd s v) : x ∈ s ∨ x = v := by
  unfold setAdd at h
  split at h
  · exact Or.inl h
  · rcases List.mem_cons.mp h with h | h
    · exact Or.inr h
    · exact Or.inl h

theorem aclLoop_some (length : Nat) (supply : Nat → Int) :
    ∀ (fuel i : Nat) (acl_set r : List Int),
      aclLoop length supply fuel i acl_set = some r →
      (∀ x ∈ r, x ∈ acl_set ∨ ∃ j, x = supply j) ∧
      (acl_set.length ≤ length → r.length ≤ length) ∧
      (acl_set.Nodup → r.Nodup) := by
  intro fuel
  induction fuel with
  | zero =>
    intro i acl_set r h
    unfold aclLoop at h
    split at h
    · cases h
      exact ⟨fun x hx => Or.inl hx, fun h' => h', fun h' => h'⟩
    · cases h
  | succ fuel ih =>
    intro i acl_set r h
    unfold aclLoop at h
    split at h
    · cases h
      exact ⟨fun x hx => Or.inl hx, fun h' => h', fun h' => h'⟩
    · next hguard =>
      obtain ⟨hmem, hlen, hnd⟩ := ih (i + 1) (setAdd acl_set (supply i)) r h
      refine ⟨?_, ?_, ?_⟩
      · intro x hx
        rcases hmem x hx with hx' | hx'
        · rcases setAdd_mem hx' with hx'' | hx''
          · exact Or.inl hx''
          · exact Or.inr ⟨i, hx''⟩
        · exact Or.inr hx'
      · intro _
        refine hlen ?_
        have := setAdd_length acl_set (supply i)
        omega
      · intro h'
        exact hnd (setAdd_nodup _ h')

/-- C2: any list returned by `generate_acl_array` has length at most 500,
elements all in [1, 32767], is strictly ascending, and has no duplicates.
The hypotheses are the contracts of the two `random.randint` calls: the
target length drawn from `randint(0, 500)` is at most 500, and every value
drawn from `randint(1, 32767)` lies in [1, 32767]. -/
theorem generate_acl_array_props (fuel length : Nat) (supply : Nat → Int) (l : List Int)
    (hlen : length ≤ 500)
    (hsup : ∀ i, 1 ≤ supply i ∧ supply i ≤ 32767)
    (hres : generate_acl_array fuel length supply = some l) :
    l.length ≤ 500 ∧ (∀ x ∈ l, 1 ≤ x ∧ x ≤ 32767) ∧ l.Sorted (· < ·) ∧ l.Nodup := by
  obtain ⟨s, hs, hmap⟩ := Option.map_eq_some'.mp hres
  obtain ⟨hmem, hslen, hnd⟩ := aclLoop_some length supply fuel 0 [] s hs
  have hperm : (List.insertionSort (· ≤ ·) s).Perm s := List.perm_insertionSort _ s
  have hnd' : l.Nodup := by
    rw [← hmap]
    exact (hperm.nodup_iff).mpr (hnd (List.nodup_nil))
  have hsorted : l.Sorted (· ≤ ·) := by
    rw [← hmap]
    exact List.sorted_insertionSort _ s
  refine ⟨?_, ?_, ?_, hnd'⟩
  · rw [← hmap, hperm.length_eq]
    have := hslen (by simp)
    omega
  · intro x hx
    have hx' : x ∈ s := by
      rw [← hmap] at hx
      exact hperm.mem_iff.mp hx
    rcases hmem x hx' with h | ⟨j, rfl⟩
    · simp at h
    · exact hsup j
  · exact (hsorted.and hnd').imp (fun hab => lt_of_le_of_ne hab.1 hab.2)

/-- Concrete supply used to witness `generate_acl_array_props`: cycles
through 1, 2, 3, all inside the value domain. -/
def wSupply : Nat → Int := fun i => ((i % 3 : Nat) : Int) + 1

/-- Witness for C2: running `generate_acl_array` with fuel 4, target length 3
and the concrete supply yields `[1, 2, 3]`, which satisfies every conjunct. -/
theorem generate_acl_array_props_witness :
    ([1, 2, 3] : List Int).length ≤ 500 ∧
      (∀ x ∈ ([1, 2, 3] : List Int), 1 ≤ x ∧ x ≤ 32767) ∧
      ([1, 2, 3] : List Int).Sorted (· < ·) ∧ ([1, 2, 3] : List Int).Nodup :=
  generate_acl_array_props 4 3 wSupply [1, 2, 3] (by decide)
    (fun i => by
      have h := Nat.mod_lt i (show 0 < 3 by decide)
      simp only [wSupply]
      omega)
    (by decide)

theorem setAdd_toFinset (s : List Int) (v : Int) :
    (setAdd s v).toFinset = insert v s.toFinset := by
  unfold setAdd
  split
  · next hc =>
    exact (Finset.insert_eq_self.mpr (List.mem_toFinset.mpr (by simpa using hc))).symm
  · simp

theorem aclLoop_total (length : Nat) (supply : Nat → Int) :
    ∀ (fuel i : Nat) (s : List Int),
      length ≤ (((Finset.range fuel).image (fun j => supply (i + j))) ∪ s.toFinset).card →
      ∃ r, aclLoop length supply fuel i s = some r := by
  intro fuel
  induction fuel with
  | zero =>
    intro i s hcard
    unfold aclLoop
    split
    · exact ⟨s, rfl⟩
    · next hguard =>
      exfalso
      simp only [Finset.range_zero, Finset.image_empty, Finset.empty_union] at hcard
      have := s.toFinset_card_le
      omega
  | succ fuel ih =>
    intro i s hcard
    unfold aclLoop
    split
    · exact ⟨s, rfl⟩
    · next hguard =>
      refine ih (i + 1) (setAdd s (supply i)) ?_
      have hsets :
          ((Finset.range (fuel + 1)).image (fun j => supply (i + j))) ∪ s.toFinset =
            ((Finset.range fuel).image (fun j => supply (i + 1 + j))) ∪
              (setAdd s (supply i)).toFinset := by
        rw [setAdd_toFinset]
        ext x
        simp only [Finset.mem_union, Finset.mem_image, Finset.mem_range, Finset.mem_insert]
        constructor
        · rintro (⟨j, hj, rfl⟩ | hx)
          · match j with
            | 0 => exact Or.inr (Or.inl rfl)
            | k + 1 =>
              refine Or.inl ⟨k, by omega, ?_⟩
              congr 1
              omega
          · exact Or.inr (Or.inr hx)
        · rintro (⟨k, hk, rfl⟩ | rfl | hx)
          · refine Or.inl ⟨k + 1, by omega, ?_⟩
            congr 1
            omega
          · exact Or.inl ⟨0, by omega, by simp⟩
          · exact Or.inr hx
      rw [← hsets]
      exact hcard

/-- C10: `generate_acl_array` terminates for every sampled target length,
under any random source able to produce every value of the domain
[1, 32767]: because the target length is at most 500 while the domain has
32767 elements, the uniqueness-enforcing set can always grow to the target,
so some finite number of draws suffices. -/
theorem generate_acl_array_terminates (length : Nat) (supply : Nat → Int)
    (hlen : length ≤ 500)
    (hsur : ∀ v : Int, 1 ≤ v → v ≤ 32767 → ∃ i, supply i = v) :
    ∃ fuel r, generate_acl_array fuel length supply = some r := by
  classical
  have hD : (Finset.Icc (1 : Int) 32767).card = 32767 := by
    rw [Int.card_Icc]
    rfl
  have hle : length ≤ (Finset.Icc (1 : Int) 32767).card := by omega
  obtain ⟨T, hTD, hTcard⟩ := Finset.exists_subset_card_eq hle
  let idx : Int → Nat := fun v =>
    if h : 1 ≤ v ∧ v ≤ 32767 then (hsur v h.1 h.2).choose else 0
  let N : Nat := T.sup idx + 1
  have hsub : T ⊆ (Finset.range N).image (fun j => supply (0 + j)) := by
    intro v hv
    have hvD := hTD hv
    rw [Finset.mem_Icc] at hvD
    refine Finset.mem_image.mpr ⟨idx v, ?_, ?_⟩
    · refine Finset.mem_range.mpr ?_
      have := Finset.le_sup (f := idx) hv
      omega
    · have hidx : idx v = (hsur v hvD.1 hvD.2).choose := by
        simp only [idx, dif_pos hvD]
      rw [Nat.zero_add, hidx]
      exact (hsur v hvD.1 hvD.2).choose_spec
  have hcard : length ≤
      (((Finset.range N).image (fun j => supply (0 + j))) ∪ ([] : List Int).toFinset).card := by
    have := Finset.card_le_card hsub
    simp only [List.toFinset_nil, Finset.union_empty]
    omega
  obtain ⟨r, hr⟩ := aclLoop_total length supply N 0 [] hcard
  exact ⟨N, List.insertionSort (· ≤ ·) r, by simp [generate_acl_array, hr]⟩

/-- Concrete supply used to witness `generate_acl_array_terminates`: cycles
through the whole domain 1..32767, so it can produce every domain value. -/
def wSupplyAll : Nat → Int := fun i => ((i % 32767 : Nat) : Int) + 1

/-- Witness for C10: with target length 2 and the cycling supply, the loop
terminates on some fuel. -/
theorem generate_acl_array_terminates_witness :
    ∃ fuel r, generate_acl_array fuel 2 wSupplyAll = some r :=
  generate_acl_array_terminates 2 wSupplyAll (by decide)
    (fun v h1 h2 => by
      refine ⟨(v - 1).toNat, ?_⟩
      have hlt : (v - 1).toNat < 32767 := by omega
      simp only [wSupplyAll]
      rw [Nat.mod_eq_of_lt hlt]
      omega)

/-! ## Bulk ACL assignment (`1_add_acls_unique.py` lines 47-113) -/

/-- One `updateOne` unit of the bulk write (lines 63-74): match a single
document by `_id` and `$set` exactly the fields ACL1, ACL2 and ACL3. -/
structure UpdateOp where
  filterId : Nat
  setFields : List (String × List Int)
deriving DecidableEq

/-- Build the update operation for one document id with the three generated
ACL arrays (lines 63-74). -/
def mkUpdateOp (docId : Nat) (acls : List Int × List Int × List Int) : UpdateOp :=
  ⟨docId, [("ACL1", acls.1), ("ACL2", acls.2.1), ("ACL3", acls.2.2)]⟩

/-- A stored document: a stable identifier plus a field map (a field absent
from the document is `none`). -/
structure StoredDoc where
  docId : Nat
  fields : String → Option (List Int)

/-- The `updateOne` filter `{"_id": doc["_id"]}` (line 65): does a stored
document match the operation's filter? -/
def matchesFilter (op : UpdateOp) (d : StoredDoc) : Bool :=
  d.docId == op.filterId

/-- Apply the `$set` document of an update operation (lines 66-72): fields
named in the `$set` map receive the new value, every other field keeps its
old value, and the identifier is untouched. -/
def applySet (op : UpdateOp) (d : StoredDoc) : StoredDoc :=
  ⟨d.docId, fun f =>
    match op.setFields.lookup f with
    | some v => some v
    | none => d.fields f⟩

theorem filter_matchesFilter_length (n : Nat) :
    ∀ (docs : List StoredDoc),
      (docs.map StoredDoc.docId).Nodup → n ∈ docs.map StoredDoc.docId →
      (docs.filter (fun d => d.docId == n)).length = 1 := by
  intro docs
  induction docs with
  | nil => intro _ h; simp at h
  | cons d rest ih =>
    intro hnd hmem
    simp only [List.map_cons, List.nodup_cons] at hnd
    rcases List.mem_cons.mp hmem with heq | hmem'
    · simp only [List.filter_cons, heq, beq_self_eq_true, if_true, List.length_cons,
        Nat.add_left_eq_self, List.length_eq_zero, List.filter_eq_nil_iff]
      intro a ha hbeq
      have hb : a.docId = d.docId := by simpa using hbeq
      exact hnd.1 (hb ▸ List.mem_map_of_mem StoredDoc.docId ha)
    · have hne : d.docId ≠ n := fun h => hnd.1 (h ▸ hmem')
      simp only [List.filter_cons, beq_iff_eq, hne, if_false]
      exact ih hnd.2 hmem'

/-- C9: every update operation of the bulk job matches exactly one document
by `_id`, and its `$set` touches only ACL1, ACL2 and ACL3 — any other field
of any document, and the document identifier, are unchanged. -/
theorem bulk_update_frame (docId : Nat) (acls : List Int × List Int × List Int)
    (d : StoredDoc) (f : String) (docs : List StoredDoc)
    (hf : f ∉ (["ACL1", "ACL2", "ACL3"] : List String))
    (hnd : (docs.map StoredDoc.docId).Nodup)
    (hmem : docId ∈ docs.map StoredDoc.docId) :
    (applySet (mkUpdateOp docId acls) d).fields f = d.fields f ∧
      (applySet (mkUpdateOp docId acls) d).docId = d.docId ∧
      (docs.filter (matchesFilter (mkUpdateOp docId acls))).length = 1 := by
  refine ⟨?_, rfl, ?_⟩
  · simp only [List.mem_cons, List.not_mem_nil, or_false, not_or] at hf
    obtain ⟨h1, h2, h3⟩ := hf
    have e1 : (f == "ACL1") = false := beq_eq_false_iff_ne.mpr h1
    have e2 : (f == "ACL2") = false := beq_eq_false_iff_ne.mpr h2
    have e3 : (f == "ACL3") = false := beq_eq_false_iff_ne.mpr h3
    simp [applySet, mkUpdateOp, List.lookup, e1, e2, e3]
  · exact filter_matchesFilter_length docId docs hnd hmem

/-- Witness for C9 at concrete inputs: operation on `_id = 7`, a document
carrying a `"title"` field, and a two-document collection. -/
theorem bulk_update_frame_witness :
    (applySet (mkUpdateOp 7 ([1], [2], [3])) ⟨7, fun _ => some [9]⟩).fields "title" =
        (⟨7, fun _ => some [9]⟩ : StoredDoc).fields "title" ∧
      (applySet (mkUpdateOp 7 ([1], [2], [3])) ⟨7, fun _ => some [9]⟩).docId =
        (⟨7, fun _ => some [9]⟩ : StoredDoc).docId ∧
      (([⟨7, fun _ => some [9]⟩, ⟨8, fun _ => none⟩] : List StoredDoc).filter
          (matchesFilter (mkUpdateOp 7 ([1], [2], [3])))).length = 1 :=
  bulk_update_frame 7 ([1], [2], [3]) ⟨7, fun _ => some [9]⟩ "title"
    [⟨7, fun _ => some [9]⟩, ⟨8, fun _ => none⟩]
    (by decide) (by simp) (by simp)

/-- Batch size of the bulk job (`BATCH_SIZE = 1000`, line 48). -/
def BATCH_SIZE : Nat := 1000

/-- Observable events of the bulk job: one event per `bulk_write` call — the
submitted operations, the `ordered` flag (the source always passes
`ordered=False`) and whether the backend accepted the batch (`ok = false`
models a raised `BulkWriteError`, which the source catches and logs at that
moment, lines 98-101 and 108-109) — plus the end-of-job completion report,
which carries only the processed-operation count (lines 111-112 print only
counts and timing). -/
inductive JobEvent where
  | bulkWrite (ops : List UpdateOp) (ordered : Bool) (ok : Bool)
  | completed (total : Nat)
deriving DecidableEq

/-- Document loop of `main` (lines 57-109): per cursor document an update
operation is appended to the current batch; when the running operation count
reaches a multiple of `BATCH_SIZE` the batch is submitted with
`ordered=False`; a `BulkWriteError` is caught and the loop continues with a
cleared batch; after the loop any remaining operations are submitted; the
completion summary is printed last.  `gen` models the per-document
`generate_acl_array` draws and `fails` models which submitted batches raise
`BulkWriteError`. -/
def bulkJobAux (gen : Nat → List Int × List Int × List Int)
    (fails : List UpdateOp → Bool) :
    List Nat → List UpdateOp → Nat → List JobEvent
  | [], batch, ops =>
    (if batch.isEmpty then [] else [.bulkWrite batch false (!fails batch)]) ++
      [.completed ops]
  | d :: rest, batch, ops =>
    let batch' := batch ++ [mkUpdateOp d (gen d)]
    let ops' := ops + 1
    if ops' % BATCH_SIZE = 0 then
      .bulkWrite batch' false (!fails batch') :: bulkJobAux gen fails rest [] ops'
    else
      bulkJobAux gen fails rest batch' ops'

/-- Whole bulk job over the cursor's document ids (line 59 fetches ids only). -/
def bulkJob (gen : Nat → List Int × List Int × List Int)
    (fails : List UpdateOp → Bool) (ids : List Nat) : List JobEvent :=
  bulkJobAux gen fails ids [] 0

/-- Forget a batch's outcome, keeping which batch was submitted and how. -/
def JobEvent.forgetOutcome : JobEvent → JobEvent
  | .bulkWrite ops o _ => .bulkWrite ops o true
  | .completed n => .completed n

/-- Size of a submitted batch, `none` for the completion event. -/
def JobEvent.batchLen : JobEvent → Option Nat
  | .bulkWrite ops _ _ => some ops.length
  | .completed _ => none

/-- Does the event's bulk write carry `ordered=False`? -/
def JobEvent.isUnordered : JobEvent → Bool
  | .bulkWrite _ o _ => !o
  | .completed _ => true

/-- Operations carried by an event. -/
def JobEvent.opsOf : JobEvent → List UpdateOp
  | .bulkWrite ops _ _ => ops
  | .completed _ => []

/-- Does a bulk-write event's recorded outcome agree with the backend model
`fails`? -/
def JobEvent.outcomeMatches (fails : List UpdateOp → Bool) : JobEvent → Bool
  | .bulkWrite ops _ ok => ok == !fails ops
  | .completed _ => true

/-- Batch-size discipline: every submitted batch has exactly `BATCH_SIZE`
operations, except that the last submitted batch may be smaller. -/
def sizesOk : List Nat → Bool
  | [] => true
  | n :: rest =>
    (if rest.isEmpty then decide (n ≤ BATCH_SIZE) else n == BATCH_SIZE) && sizesOk rest

theorem sizesOk_cons_full (t : List Nat) (h : sizesOk t = true) :
    sizesOk (BATCH_SIZE :: t) = true := by
  cases t with
  | nil => decide
  | cons m ms =>
    show ((if (m :: ms).isEmpty then decide (BATCH_SIZE ≤ BATCH_SIZE)
        else BATCH_SIZE == BATCH_SIZE) && sizesOk (m :: ms)) = true
    simp [h]

theorem bulkJobAux_sizes (gen : Nat → List Int × List Int × List Int)
    (fails : List UpdateOp → Bool) :
    ∀ (ids : List Nat) (batch : List UpdateOp) (ops : Nat),
      batch.length = ops % BATCH_SIZE →
      sizesOk ((bulkJobAux gen fails ids batch ops).filterMap JobEvent.batchLen) = true := by
  intro ids
  induction ids with
  | nil =>
    intro batch ops hinv
    unfold bulkJobAux
    by_cases hb : batch.isEmpty
    · simp [hb, List.filterMap, JobEvent.batchLen, sizesOk]
    · have : batch.length ≤ BATCH_SIZE := by
        have h2 : batch.length = ops % 1000 := by simpa [BATCH_SIZE] using hinv
        simp only [BATCH_SIZE]
        omega
      simp [hb, List.filterMap, JobEvent.batchLen, sizesOk, this]
  | cons d rest ih =>
    intro batch ops hinv
    unfold bulkJobAux
    simp only
    by_cases hmod : (ops + 1) % BATCH_SIZE = 0
    · have h1 : (ops + 1) % 1000 = 0 := by simpa [BATCH_SIZE] using hmod
      have h2 : batch.length = ops % 1000 := by simpa [BATCH_SIZE] using hinv
      have hlen : (batch ++ [mkUpdateOp d (gen d)]).length = BATCH_SIZE := by
        simp only [List.length_append, List.length_cons, List.length_nil, BATCH_SIZE]
        omega
      have htail := ih [] (ops + 1) (by simp [hmod])
      simp only [hmod, if_true, List.filterMap_cons, JobEvent.batchLen, hlen]
      exact sizesOk_cons_full _ htail
    · have h3 : (ops + 1) % 1000 ≠ 0 := by simpa [BATCH_SIZE] using hmod
      have h2 : batch.length = ops % 1000 := by simpa [BATCH_SIZE] using hinv
      have hinv' : (batch ++ [mkUpdateOp d (gen d)]).length = (ops + 1) % BATCH_SIZE := by
        simp only [List.length_append, List.length_cons, List.length_nil, BATCH_SIZE]
        omega
      simp only [hmod, if_false]
      exact ih _ _ hinv'

theorem bulkJobAux_structure (gen : Nat → List Int × List Int × List Int)
    (fails fails' : List UpdateOp → Bool) :
    ∀ (ids : List Nat) (batch : List UpdateOp) (ops : Nat),
      (bulkJobAux gen fails ids batch ops).map JobEvent.forgetOutcome =
        (bulkJobAux gen fails' ids batch ops).map JobEvent.forgetOutcome := by
  intro ids
  induction ids with
  | nil =>
    intro batch ops
    unfold bulkJobAux
    by_cases hb : batch.isEmpty <;> simp [hb, JobEvent.forgetOutcome]
  | cons d rest ih =>
    intro batch ops
    unfold bulkJobAux
    simp only
    by_cases hmod : (ops + 1) % BATCH_SIZE = 0
    · simp [hmod, JobEvent.forgetOutcome, ih]
    · simp only [hmod, if_false]
      exact ih _ _

theorem bulkJobAux_last (gen : Nat → List Int × List Int × List Int)
    (fails : List UpdateOp → Bool) :
    ∀ (ids : List Nat) (batch : List UpdateOp) (ops : Nat),
      (bulkJobAux gen fails ids batch ops).getLast? =
        some (.completed (ops + ids.length)) := by
  intro ids
  induction ids with
  | nil =>
    intro batch ops
    unfold bulkJobAux
    by_cases hb : batch.isEmpty <;> simp [hb]
  | cons d rest ih =>
    intro batch ops
    unfold bulkJobAux
    simp only
    by_cases hmod : (ops + 1) % BATCH_SIZE = 0
    · simp only [hmod, if_true]
      have h := ih [] (ops + 1)
      rcases hr : bulkJobAux gen fails rest [] (ops + 1) with _ | ⟨e, es⟩
      · rw [hr] at h; simp at h
      · rw [hr] at h
        rw [List.getLast?_cons_cons, h]
        congr 2
        simp
        omega
    · simp only [hmod, if_false]
      rw [ih _ _]
      congr 2
      simp
      omega

theorem bulkJobAux_all (gen : Nat → List Int × List Int × List Int)
    (fails : List UpdateOp → Bool) (p : JobEvent → Bool)
    (hflush : ∀ ops, p (.bulkWrite ops false (!fails ops)) = true)
    (hdone : ∀ n, p (.completed n) = true) :
    ∀ (ids : List Nat) (batch : List UpdateOp) (ops : Nat),
      (bulkJobAux gen fails ids batch ops).all p = true := by
  intro ids
  induction ids with
  | nil =>
    intro batch ops
    unfold bulkJobAux
    by_cases hb : batch.isEmpty <;> simp [hb, hflush, hdone]
  | cons d rest ih =>
    intro batch ops
    unfold bulkJobAux
    simp only
    by_cases hmod : (ops + 1) % BATCH_SIZE = 0
    · simp [hmod, hflush, ih]
    · simp only [hmod, if_false]
      exact ih _ _

theorem bulkJobAux_ops (gen : Nat → List Int × List Int × List Int)
    (fails : List UpdateOp → Bool) :
    ∀ (ids : List Nat) (batch : List UpdateOp) (ops : Nat),
      (bulkJobAux gen fails ids batch ops).flatMap JobEvent.opsOf =
        batch ++ ids.map (fun d => mkUpdateOp d (gen d)) := by
  intro ids
  induction ids with
  | nil =>
    intro batch ops
    unfold bulkJobAux
    by_cases hb : batch.isEmpty
    · simp [hb, JobEvent.opsOf, List.isEmpty_iff.mp hb]
    · simp [hb, JobEvent.opsOf]
  | cons d rest ih =>
    intro batch ops
    unfold bulkJobAux
    simp only
    by_cases hmod : (ops + 1) % BATCH_SIZE = 0
    · simp [hmod, JobEvent.opsOf, ih]
    · simp only [hmod, if_false]
      rw [ih]
      simp

/-- C8 (amended): the bulk job submits its operations in unordered batches —
every batch has exactly `BATCH_SIZE = 1000` operations except that the final
one may be smaller; which batches are submitted, and their contents and
order, are independent of which batches fail (a `BulkWriteError` is isolated
to its batch: it is logged at the moment it occurs and processing continues,
and the already-committed batches are untouched); every submitted batch's
outcome reflects only that batch; all documents' operations are submitted
exactly once, in cursor order; and the job always ends with the completion
summary, which carries only the processed-operation count — the per-batch
failures are reported as they happen, not accumulated into the end-of-job
report. -/
theorem bulk_job_batching (gen : Nat → List Int × List Int × List Int)
    (fails fails' : List UpdateOp → Bool) (ids : List Nat) :
    sizesOk ((bulkJob gen fails ids).filterMap JobEvent.batchLen) = true ∧
      (bulkJob gen fails ids).all JobEvent.isUnordered = true ∧
      (bulkJob gen fails ids).map JobEvent.forgetOutcome =
        (bulkJob gen fails' ids).map JobEvent.forgetOutcome ∧
      (bulkJob gen fails ids).all (JobEvent.outcomeMatches fails) = true ∧
      (bulkJob gen fails ids).flatMap JobEvent.opsOf =
        ids.map (fun d => mkUpdateOp d (gen d)) ∧
      (bulkJob gen fails ids).getLast? = some (.completed ids.length) := by
  refine ⟨?_, ?_, ?_, ?_, ?_, ?_⟩
  · exact bulkJobAux_sizes gen fails ids [] 0 (by simp)
  · exact bulkJobAux_all gen fails JobEvent.isUnordered
      (fun ops => rfl) (fun n => rfl) ids [] 0
  · exact bulkJobAux_structure gen fails fails' ids [] 0
  · exact bulkJobAux_all gen fails (JobEvent.outcomeMatches fails)
      (fun ops => by simp [JobEvent.outcomeMatches]) (fun n => rfl) ids [] 0
  · simpa using bulkJobAux_ops gen fails ids [] 0
  · simpa using bulkJobAux_last gen fails ids [] 0

/-- Constant ACL generator used only in the C8 counterexample run. -/
def wGen : Nat → List Int × List Int × List Int := fun _ => ([], [], [])

/-- Counterexample for C8 as stated: the claim says per-batch failures are
accumulated and reported at the end of the job.  In a concrete run on two
documents where the backend fails the (final) batch, a `BulkWriteError` is
indeed raised and logged at the batch (first conjunct), yet the end-of-job
report is the same event as in a failure-free run — `completed 2`, carrying
only the processed count and no accumulated failure information (second
conjunct): nothing about the failures reaches the end of the job. -/
theorem bulk_job_no_end_failure_report :
    JobEvent.bulkWrite [mkUpdateOp 1 (wGen 1), mkUpdateOp 2 (wGen 2)] false false ∈
        bulkJob wGen (fun _ => true) [1, 2] ∧
      (bulkJob wGen (fun _ => true) [1, 2]).getLast? =
        (bulkJob wGen (fun _ => false) [1, 2]).getLast? := by
  constructor
  · decide
  · decide

/-! ## Lexical search script (`3_atlas_search.py`) -/

/-- Fuzzy-matching parameters of the `text` operator (lines 82-86). -/
structure FuzzyParams where
  maxEdits : Nat
  prefixLen : Nat
  maxExpansions : Nat
deriving DecidableEq

/-- The `query_text` literal shared by the three query scripts. -/
def query_text : String :=
  "Power struggle in Chicago crime syndicate; ambitious hitman overthrows boss, ignites gang war, and faces downfall due to forbidden romance and overprotectiveness of his sister."

/-- Shape of a `$search` pipeline as the script builds it: index name, the
`compound.must` ACL clauses (empty when the stage uses a bare `text`
operator instead of `compound`), the text query with its optional fuzzy
parameters, and the trailing `$limit`. -/
structure SearchPipeline where
  index : String
  must : List SearchInClause
  textQuery : String
  fuzzy : Option FuzzyParams
  limit : Nat
deriving DecidableEq

/-- The filtered `pipeline` of `3_atlas_search.py` lines 46-109:
`compound.must` = the four ACL clauses, `compound.should` = the fuzzy text
query, `$limit` 5. -/
def atlas_pipeline : SearchPipeline :=
  ⟨"search_ACLs", searchMustClauses, query_text, some ⟨2, 3, 50⟩, 5⟩

/-- The fallback `pipeline_no_filter` of lines 133-159: a bare `text` query
on the same index, no `compound` and hence no ACL clauses, `$limit` 5. -/
def atlas_pipeline_no_filter : SearchPipeline :=
  ⟨"search_ACLs", [], query_text, none, 5⟩

/-- An issued `$search` aggregation, with the flag that distinguishes the
announced fallback run ("Trying search without ACL filters..." and the
fallback results banner, lines 131 and 165). -/
inductive ASEvent where
  | searchQuery (p : SearchPipeline) (announcedFallback : Bool)
deriving DecidableEq

/-- Outcome of the lexical script, mirroring which banner its results print
under. -/
inductive ASOutcome where
  | results (docs : List Nat)
  | fallbackResults (docs : List Nat)
  | bothFailed (e1 e2 : String)
deriving DecidableEq

/-- Control flow of `3_atlas_search.py` lines 44-173: run the filtered
pipeline; on success print its results; on any exception announce the
fallback and run `pipeline_no_filter`; a second failure is only reported.
`r1`, `r2` model the two `collection.aggregate` responses. -/
def atlas_search_run (r1 r2 : Except String (List Nat)) : List ASEvent × ASOutcome :=
  match r1 with
  | .ok docs => ([.searchQuery atlas_pipeline false], .results docs)
  | .error e1 =>
    match r2 with
    | .ok docs =>
      ([.searchQuery atlas_pipeline false, .searchQuery atlas_pipeline_no_filter true],
        .fallbackResults docs)
    | .error e2 =>
      ([.searchQuery atlas_pipeline false, .searchQuery atlas_pipeline_no_filter true],
        .bothFailed e1 e2)

/-- Counterexample for C5 as stated: in a concrete run whose filtered query
fails, the script's second (retry) query is `pipeline_no_filter`, whose
`compound.must` list is empty, while the original query carried the four ACL
clauses — the retry is NOT issued with the same ACL filter. -/
theorem atlas_retry_drops_filter :
    (atlas_search_run (.error "transient failure") (.ok [1])).1 =
        [.searchQuery atlas_pipeline false, .searchQuery atlas_pipeline_no_filter true] ∧
      atlas_pipeline_no_filter.must = [] ∧ atlas_pipeline.must.length = 4 := by
  exact ⟨rfl, rfl, rfl⟩

/-- C5 (amended): when the filtered lexical query fails, the script retries
exactly once with `pipeline_no_filter`, a pipeline that carries no ACL
clause at all (`must = []`); the dropped filter is announced (the fallback
flag on the retry event models the printed "Trying search without ACL
filters..." notice and the separate fallback results banner), so the drop is
not silent — but a retry with the original ACL filter never happens. -/
theorem atlas_retry_without_filter (e : String) (r2 : Except String (List Nat)) :
    (atlas_search_run (.error e) r2).1 =
        [.searchQuery atlas_pipeline false, .searchQuery atlas_pipeline_no_filter true] ∧
      atlas_pipeline_no_filter.must = [] ∧
      atlas_pipeline_no_filter.index = atlas_pipeline.index ∧
      atlas_pipeline_no_filter.textQuery = atlas_pipeline.textQuery := by
  cases r2 <;> exact ⟨rfl, rfl, rfl, rfl⟩

/-! ## Vector search script (`4_vector_search.py`) -/

/-- Shape of the `$vectorSearch` stage as the script builds it (lines 94-117
filtered, lines 140-162 fallback): index, embedding path, `numCandidates`,
`limit`, and the optional ACL filter — `none` on the fallback pipeline. -/
structure VectorPipeline where
  index : String
  path : String
  numCandidates : Nat
  limit : Nat
  filter : Option (List InCond)
deriving DecidableEq

/-- The filtered vector pipeline of lines 94-117. -/
def vs_pipeline : VectorPipeline :=
  ⟨"vector_ACLs", "plot_embedding", 100, 5, some vector_filter⟩

/-- The fallback `pipeline_no_filter` of lines 140-162: same stage without
the `filter` key. -/
def vs_pipeline_no_filter : VectorPipeline :=
  ⟨"vector_ACLs", "plot_embedding", 100, 5, none⟩

/-- Outcome of the vector script, mirroring which banner its results print
under (filtered results, lines 123-132; fallback results "without filter",
lines 165-174; or failures). -/
inductive VSOutcome where
  | filtered (docs : List Nat)
  | fallbackUnfiltered (docs : List Nat)
  | bothFailed (e1 e2 : String)
  | embedFailed
deriving DecidableEq

/-- Is the outcome flagged as "filter not applied"?  In the script this flag
is the distinct "Fallback Search Results (without filter):" banner under
which — and only under which — fallback results are printed. -/
def VSOutcome.filterNotApplied : VSOutcome → Bool
  | .fallbackUnfiltered _ => true
  | _ => false

/-- Control flow of `4_vector_search.py` lines 57-176: generate the query
embedding (`exit(1)` on failure), run the filtered `$vectorSearch`; on any
exception run `pipeline_no_filter` and print its results under the fallback
banner.  `r1`, `r2` model the two `collection.aggregate` responses. -/
def vector_search_outcome (embedOk : Bool) (r1 r2 : Except String (List Nat)) : VSOutcome :=
  if embedOk then
    match r1 with
    | .ok docs => .filtered docs
    | .error e1 =>
      match r2 with
      | .ok docs => .fallbackUnfiltered docs
      | .error e2 => .bothFailed e1 e2
  else .embedFailed

/-- C6: when the vector backend rejects the filtered query and the fallback
succeeds, the script's outcome is the dedicated fallback constructor — every
fallback result sits under the "filter not applied" mark visible to the
caller, a mark that filtered outcomes never carry (so a degraded result is
never presented as a filtered one) — and the fallback pipeline really
carries no filter. -/
theorem vector_fallback_marked (e : String) (docs : List Nat) :
    vector_search_outcome true (.error e) (.ok docs) = .fallbackUnfiltered docs ∧
      (vector_search_outcome true (.error e) (.ok docs)).filterNotApplied = true ∧
      (∀ ds : List Nat, (VSOutcome.filtered ds).filterNotApplied = false) ∧
      vs_pipeline_no_filter.filter = none :=
  ⟨rfl, rfl, fun _ => rfl, rfl⟩

/-- Network requests of `4_vector_search.py`, in issue order. -/
inductive VSAction where
  | embedRequest (text : String)
  | vectorQuery (p : VectorPipeline)
deriving DecidableEq

/-- Requests the vector script issues, in order (lines 57-176), with the two
numeric stage parameters generalized from the source constants
(`numCandidates = 100` and `limit = 5`, lines 100-101) to exhibit the
absence of any `numCandidates`/`limit` validation: the embedding request is
issued first, unconditionally; when it succeeds the filtered `$vectorSearch`
aggregation is issued; when that fails, the unfiltered one. -/
def vector_search_requests (numCandidates limit : Nat) (embedOk firstFails : Bool) :
    List VSAction :=
  .embedRequest query_text ::
    (if embedOk then
      .vectorQuery ⟨"vector_ACLs", "plot_embedding", numCandidates, limit, some vector_filter⟩ ::
        (if firstFails then
          [.vectorQuery ⟨"vector_ACLs", "plot_embedding", numCandidates, limit, none⟩]
        else [])
    else [])

/-- Counterexample for C4 as stated: with `numCandidates = 4 < 5 = limit`
the script is not rejected before any network call — it still issues the
embedding request first and then the `$vectorSearch` aggregation with those
very parameters. -/
theorem vector_no_candidates_validation :
    (4 : Nat) < 5 ∧
      (vector_search_requests 4 5 true false).length = 2 ∧
      (vector_search_requests 4 5 true false).head? = some (.embedRequest query_text) ∧
      VSAction.vectorQuery ⟨"vector_ACLs", "plot_embedding", 4, 5, some vector_filter⟩ ∈
        vector_search_requests 4 5 true false := by
  refine ⟨by decide, rfl, rfl, ?_⟩
  simp [vector_search_requests]

/-- C4 (amended): the script performs no `numCandidates`/`limit` validation
at all — the embedding request is always the first request, and whenever the
embedding succeeds the filtered vector query is issued, whatever the
relation between the two parameters; the script's own fixed configuration
(`numCandidates = 100`, `limit = 5`) does satisfy
`limit ≤ numCandidates`. -/
theorem vector_requests_unvalidated (nc k : Nat) (eo ff : Bool) :
    (vector_search_requests nc k eo ff).head? = some (.embedRequest query_text) ∧
      VSAction.vectorQuery ⟨"vector_ACLs", "plot_embedding", nc, k, some vector_filter⟩ ∈
        vector_search_requests nc k true ff ∧
      vs_pipeline.numCandidates = 100 ∧ vs_pipeline.limit = 5 ∧
      vs_pipeline.limit ≤ vs_pipeline.numCandidates := by
  refine ⟨rfl, ?_, rfl, rfl, by decide⟩
  simp [vector_search_requests]

/-! ## Rank fusion script (`5_rank_fusion.py`) -/

/-- The `$rankFusion` pipeline the script submits (lines 85-160): two input
pipelines — the filtered `$vectorSearch` (`numCandidates` 100, `limit` 20,
the shared ACL filter, lines 90-101) and the filtered `$search` (the same
four `compound.must` clauses, the fuzzy text query, `$limit` 20,
lines 102-152) — followed by a final `$limit` of 5 (lines 157-159). -/
structure RankFusionPipeline where
  vectorInput : VectorPipeline
  textInput : SearchPipeline
  finalLimit : Nat
deriving DecidableEq

/-- The concrete pipeline literal of `5_rank_fusion.py` lines 85-160. -/
def rank_fusion_pipeline : RankFusionPipeline :=
  ⟨⟨"vector_ACLs", "plot_embedding", 100, 20, some vector_filter⟩,
    ⟨"search_ACLs", searchMustClauses, query_text, some ⟨2, 3, 50⟩, 20⟩, 5⟩

/-- Outcome of the rank-fusion script: either the native `$rankFusion`
results, or the reported failure (the script prints the error plus the
"upgrade to MongoDB 8.1+" advice, lines 178-181, and stops). -/
inductive RFOutcome where
  | results (docs : List Nat)
  | failureReported (msg : String)
deriving DecidableEq

/-- Did the run produce a ranked result list? -/
def RFOutcome.isResults : RFOutcome → Bool
  | .results _ => true
  | .failureReported _ => false

/-- Control flow of `5_rank_fusion.py` lines 84-181: submit the
`$rankFusion` pipeline; print its results on success; on any exception
(including `$rankFusion` being unavailable on the server) print the failure
and the upgrade advice and stop — the `except` branch issues no further
query and computes no fusion of its own.  `backend` models
`collection.aggregate`. -/
def rank_fusion_run (backend : RankFusionPipeline → Except String (List Nat)) : RFOutcome :=
  match backend rank_fusion_pipeline with
  | .ok docs => .results docs
  | .error e => .failureReported e

/-- Counterexample for C3 as stated: on a backend without the native
`$rankFusion` stage the run reports the failure and produces no ranked
result list — there is no in-process reciprocal-rank-fusion fallback. -/
theorem rank_fusion_no_fallback :
    rank_fusion_run (fun _ => .error "Unrecognized pipeline stage name: $rankFusion") =
        .failureReported "Unrecognized pipeline stage name: $rankFusion" ∧
      (rank_fusion_run
          (fun _ => .error "Unrecognized pipeline stage name: $rankFusion")).isResults =
        false :=
  ⟨rfl, rfl⟩

/-- C3 (amended): whenever the backend raises on the `$rankFusion`
aggregation, the script reports that failure (printing the error and the
advice to upgrade the server) and ends without producing any ranked result
list; it does not fall back to computing reciprocal-rank fusion in-process
from the two raw ranked lists. -/
theorem rank_fusion_error_reported (backend : RankFusionPipeline → Except String (List Nat))
    (e : String) (h : backend rank_fusion_pipeline = .error e) :
    rank_fusion_run backend = .failureReported e ∧
      (rank_fusion_run backend).isResults = false := by
  simp [rank_fusion_run, h, RFOutcome.isResults]

/-- Witness for C3's amended theorem at a concrete backend. -/
theorem rank_fusion_error_reported_witness :
    rank_fusion_run (fun _ => .error "no such stage") = .failureReported "no such stage" ∧
      (rank_fusion_run (fun _ => .error "no such stage")).isResults = false :=
  rank_fusion_error_reported (fun _ => .error "no such stage") "no such stage" rfl

/-! ## Index creation (`2_create_indexes.py`) -/

/-- Substring test on character lists (Python `in` on strings). -/
def charsContain (pat : List Char) : List Char → Bool
  | [] => pat.isEmpty
  | c :: rest => pat.isPrefixOf (c :: rest) || charsContain pat rest

/-- Embedding of the error classification
`"already exists" in str(e).lower() or "duplicate" in str(e).lower()`
(lines 74 and 152); `Char.toLower` models Python `str.lower` on the ASCII
fragment these patterns live in. -/
def isAlreadyExistsError (e : String) : Bool :=
  charsContain "already exists".data (e.data.map Char.toLower) ||
    charsContain "duplicate".data (e.data.map Char.toLower)

/-- One entry of `collection.list_search_indexes()`: its name and type. -/
structure IdxInfo where
  name : String
  typ : String
deriving DecidableEq

/-- Does the listing contain an index of the given name and kind
(the loops at lines 43-47 and 118-123)? -/
def hasIndex (existing : List IdxInfo) (nm ty : String) : Bool :=
  existing.any (fun i => i.name == nm && i.typ == ty)

/-- The create attempt shared by both builders (lines 51-79 and 127-157):
submit one create request — `SearchIndexModel` and the direct method call
are the same single request, chosen by PyMongo version — and return `True`
on success or on an "already exists"/"duplicate" error, `False` on any other
error; no retry.  First component: the returned boolean; second: how many
create requests were submitted. -/
def createIndexStep (createResult : Except String Unit) : Bool × Nat :=
  match createResult with
  | .ok _ => (true, 1)
  | .error e => (if isAlreadyExistsError e then true else false, 1)

/-- `create_search_index` (lines 17-79): if listing the existing indexes
succeeds and shows an index named `search_ACLs` of type `search`, return
`True` without submitting anything; otherwise — including when the listing
itself fails, which is only warned about (lines 48-49) — run the create
attempt. -/
def create_search_index (listing : Except String (List IdxInfo))
    (createResult : Except String Unit) : Bool × Nat :=
  match listing with
  | .ok existing =>
    if hasIndex existing "search_ACLs" "search" then (true, 0)
    else createIndexStep createResult
  | .error _ => createIndexStep createResult

/-- `create_vector_index` (lines 81-157): same logic for the index named
`vector_ACLs` of type `vectorSearch`. -/
def create_vector_index (listing : Except String (List IdxInfo))
    (createResult : Except String Unit) : Bool × Nat :=
  match listing with
  | .ok existing =>
    if hasIndex existing "vector_ACLs" "vectorSearch" then (true, 0)
    else createIndexStep createResult
  | .error _ => createIndexStep createResult

/-- C7: index creation is idempotent and fails hard otherwise.  When the
listing shows an index of the same name and kind, both builders return
success with zero create submissions (no modification).  When the index is
absent from the listing: a successful create returns success; a creation
error matching "already exists"/"duplicate" still returns success (the one
submitted request modified nothing — the backend rejected it as a
duplicate); any other creation error returns `False`, with exactly one
submission ever made — no retry. -/
theorem create_indexes_idempotent_hard_fail
    (existing missing : List IdxInfo) (r : Except String Unit) (edup ehard : String)
    (hs : hasIndex existing "search_ACLs" "search" = true)
    (hv : hasIndex existing "vector_ACLs" "vectorSearch" = true)
    (hms : hasIndex missing "search_ACLs" "search" = false)
    (hmv : hasIndex missing "vector_ACLs" "vectorSearch" = false)
    (hdup : isAlreadyExistsError edup = true)
    (hhard : isAlreadyExistsError ehard = false) :
    create_search_index (.ok existing) r = (true, 0) ∧
      create_vector_index (.ok existing) r = (true, 0) ∧
      create_search_index (.ok missing) (.ok ()) = (true, 1) ∧
      create_vector_index (.ok missing) (.ok ()) = (true, 1) ∧
      create_search_index (.ok missing) (.error edup) = (true, 1) ∧
      create_vector_index (.ok missing) (.error edup) = (true, 1) ∧
      create_search_index (.ok missing) (.error ehard) = (false, 1) ∧
      create_vector_index (.ok missing) (.error ehard) = (false, 1) := by
  simp [create_search_index, create_vector_index, createIndexStep, hs, hv, hms, hmv,
    hdup, hhard]

/-- Witness for C7 at concrete inputs: a listing holding both indexes, an
empty listing, a duplicate-index error and an unrelated hard error. -/
theorem create_indexes_idempotent_hard_fail_witness :
    create_search_index
        (.ok [⟨"search_ACLs", "search"⟩, ⟨"vector_ACLs", "vectorSearch"⟩]) (.ok ()) =
        (true, 0) ∧
      create_vector_index
        (.ok [⟨"search_ACLs", "search"⟩, ⟨"vector_ACLs", "vectorSearch"⟩]) (.ok ()) =
        (true, 0) ∧
      create_search_index (.ok []) (.ok ()) = (true, 1) ∧
      create_vector_index (.ok []) (.ok ()) = (true, 1) ∧
      create_search_index (.ok []) (.error "Duplicate Index") = (true, 1) ∧
      create_vector_index (.ok []) (.error "Duplicate Index") = (true, 1) ∧
      create_search_index (.ok []) (.error "exceeded index quota") = (false, 1) ∧
      create_vector_index (.ok []) (.error "exceeded index quota") = (false, 1) :=
  create_indexes_idempotent_hard_fail
    [⟨"search_ACLs", "search"⟩, ⟨"vector_ACLs", "vectorSearch"⟩] []
    (.ok ()) "Duplicate Index" "exceeded index quota"
    (by decide) (by decide) (by decide) (by decide) (by decide) (by decide)
